import Mathlib

/-!
# Verification of the oleamind satellite-worker core

Shallow embedding of the satellite-worker pipeline
(`src/satellite-worker/aws_ndvi_processor.py`, `image_generator.py`,
`ndvi_processor.py`) over exact rational arithmetic, together with
theorems settling the frozen claims about scene selection, index
computation, upsampling, statistics, colour mapping and date handling.
-/

namespace Oleamind

/-! ## Data model: catalog scenes (spec §3, `process_parcel_ndvi`)

A STAC scene as the selection code reads it: `eo:cloud_cover` may be
absent (Python `properties.get('eo:cloud_cover', 100)` defaults it to
100) and the acquisition time is the POSIX timestamp in seconds that
`datetime.fromisoformat(...).timestamp()` yields. -/

structure Scene where
  sceneId : String
  cloudCover : Option ℚ
  acquisitionTs : ℚ
deriving DecidableEq, Repr

/-- `SCENE_SELECTION_MODE` values handled by `process_parcel_ndvi`
(lines 491-510); any other string falls into the `least_cloud` branch,
so three constructors suffice. -/
inductive SelectionMode where
  | leastCloud
  | mostRecent
  | balanced
deriving DecidableEq, Repr

/-- Python's `min(items, key=f)`: the first element attaining the least
key.  `min` replaces the running minimum only on a strictly smaller
key, which the fold mirrors. -/
def minBy {α β : Type*} [LinearOrder β] (f : α → β) : List α → Option α
  | [] => none
  | x :: xs => some (xs.foldl (fun acc y => if f y < f acc then y else acc) x)

/-- Cloud cover as the selection keys read it (default 100 if absent). -/
def cloudOf (s : Scene) : ℚ := s.cloudCover.getD 100

/-- Key of the `least_cloud` branch: the Python tuple
`(cloud_cover, -timestamp)` compared lexicographically. -/
def leastCloudKey (s : Scene) : ℚ ×ₗ ℚ := toLex (cloudOf s, -s.acquisitionTs)

/-- Key of the `most_recent` branch: `(-timestamp, cloud_cover)`. -/
def mostRecentKey (s : Scene) : ℚ ×ₗ ℚ := toLex (-s.acquisitionTs, cloudOf s)

/-- Key of the `balanced` branch, exactly as written in the source:
`cloud * 0.6 + (-timestamp / 86400 * 0.4)`. -/
def balancedKey (s : Scene) : ℚ :=
  cloudOf s * (6 / 10) + (-s.acquisitionTs / 86400 * (4 / 10))

/-- Scene selection of `process_parcel_ndvi` (lines 489-510): a
`min(items, key=...)` whose key depends on the selection mode. -/
def selectScene (mode : SelectionMode) (items : List Scene) : Option Scene :=
  match mode with
  | .mostRecent => minBy mostRecentKey items
  | .balanced => minBy balancedKey items
  | .leastCloud => minBy leastCloudKey items

/-- Age of a scene in days measured from the current time, the quantity
named by the spec's `balanced` formula ("age measured from the current
time"). -/
def ageDays (now : ℚ) (s : Scene) : ℚ := (now - s.acquisitionTs) / 86400

/-- The score the spec's words assign to `balanced` mode:
`0.6 × cloud_cover_pct − 0.4 × age_in_days`.  Stated from the spec for
comparison against the code's `balancedKey`. -/
def balancedSpecScore (now : ℚ) (s : Scene) : ℚ :=
  (6 / 10) * cloudOf s - (4 / 10) * ageDays now s

/-! ### Generic facts about `minBy` -/

theorem foldl_min_mem {α β : Type*} [LinearOrder β] (f : α → β) (xs : List α) (x : α) :
    xs.foldl (fun acc y => if f y < f acc then y else acc) x = x ∨
      xs.foldl (fun acc y => if f y < f acc then y else acc) x ∈ xs := by
  induction xs generalizing x with
  | nil => left; rfl
  | cons z zs ih =>
    simp only [List.foldl_cons]
    rcases ih (if f z < f x then z else x) with h | h
    · by_cases hz : f z < f x
      · right; rw [h, if_pos hz]; exact List.mem_cons_self z zs
      · left; rw [h, if_neg hz]
    · right; exact List.mem_cons_of_mem z h

theorem foldl_min_le {α β : Type*} [LinearOrder β] (f : α → β) (xs : List α) (x : α) :
    f (xs.foldl (fun acc y => if f y < f acc then y else acc) x) ≤ f x ∧
      ∀ y ∈ xs, f (xs.foldl (fun acc y => if f y < f acc then y else acc) x) ≤ f y := by
  induction xs generalizing x with
  | nil => exact ⟨le_refl _, by simp⟩
  | cons z zs ih =>
    simp only [List.foldl_cons]
    obtain ⟨h1, h2⟩ := ih (if f z < f x then z else x)
    have hx : f (if f z < f x then z else x) ≤ f x := by
      by_cases hz : f z < f x
      · rw [if_pos hz]; exact le_of_lt hz
      · rw [if_neg hz]
    have hz' : f (if f z < f x then z else x) ≤ f z := by
      by_cases hz : f z < f x
      · rw [if_pos hz]
      · rw [if_neg hz]; exact le_of_not_lt hz
    refine ⟨le_trans h1 hx, ?_⟩
    intro y hy
    rcases List.mem_cons.mp hy with rfl | hy'
    · exact le_trans h1 hz'
    · exact h2 y hy'

theorem minBy_spec {α β : Type*} [LinearOrder β] (f : α → β) (items : List α)
    (h : items ≠ []) :
    ∃ sel, minBy f items = some sel ∧ sel ∈ items ∧ ∀ y ∈ items, f sel ≤ f y := by
  match items with
  | [] => exact absurd rfl h
  | x :: xs =>
    refine ⟨xs.foldl (fun acc y => if f y < f acc then y else acc) x, rfl, ?_, ?_⟩
    · rcases foldl_min_mem f xs x with h | h
      · rw [h]; exact List.mem_cons_self x xs
      · exact List.mem_cons_of_mem x h
    · intro y hy
      obtain ⟨h1, h2⟩ := foldl_min_le f xs x
      rcases List.mem_cons.mp hy with rfl | hy'
      · exact h1
      · exact h2 y hy'

/-! ## Request pipeline after the catalog search (`process_parcel_ndvi` 452-546)

The S3 band reads and statistics are network work outside the selection
logic; the pipeline below abstracts them as a supplied
`computeStats : Scene → α` and keeps the control flow of the source:
an empty search result returns the error payload verbatim, otherwise
the selected scene's metadata and stats are assembled into a success
payload. -/

inductive PipelineResult (α : Type) where
  | errorPayload (message info : String)
  | success (sceneId : String) (productTs : ℚ) (cloudCover : ℚ) (stats : α)
deriving DecidableEq, Repr

def noImageryMessage : String :=
  "No Sentinel-2 imagery found for this location and date range"

def noImageryInfo : String :=
  "Try expanding your date range or check if the area is over water/polar regions"

/-- `process_parcel_ndvi` from the `if not items:` check onward.  The
success payload records `best_item.properties.get('eo:cloud_cover', 0)`
(note the default 0 here, unlike the selection keys). -/
def processScenes {α : Type} (mode : SelectionMode) (computeStats : Scene → α)
    (items : List Scene) : PipelineResult α :=
  match items with
  | [] => .errorPayload noImageryMessage noImageryInfo
  | x :: xs =>
    let best := (selectScene mode (x :: xs)).getD x
    .success best.sceneId best.acquisitionTs (best.cloudCover.getD 0) (computeStats best)

/-! ## Index calculation (`calculate_ndvi_from_s3` 277-296)

Per-pixel band math over exact rationals.  The source adds
`eps = 1e-8` to the NDVI, NDWI and NDMI denominators; the EVI and SAVI
expressions are written without it. -/

def eps : ℚ := 1 / 100000000

/-- Soil brightness correction factor `L = 0.5` of SAVI. -/
def soilL : ℚ := 1 / 2

def ndviDenom (nir red : ℚ) : ℚ := nir + red + eps

def ndwiDenom (green nir : ℚ) : ℚ := green + nir + eps

def ndmiDenom (nir swir : ℚ) : ℚ := nir + swir + eps

/-- EVI denominator as the source writes it:
`nir + 6*red - 7.5*blue + 1` — no epsilon term. -/
def eviDenom (nir red blue : ℚ) : ℚ := nir + 6 * red - (15 / 2) * blue + 1

/-- SAVI denominator as the source writes it: `nir + red + L` — no
epsilon term. -/
def saviDenom (nir red : ℚ) : ℚ := nir + red + soilL

def ndviPx (nir red : ℚ) : ℚ := (nir - red) / ndviDenom nir red

def ndwiPx (green nir : ℚ) : ℚ := (green - nir) / ndwiDenom green nir

def ndmiPx (nir swir : ℚ) : ℚ := (nir - swir) / ndmiDenom nir swir

def eviPx (nir red blue : ℚ) : ℚ := (5 / 2) * ((nir - red) / eviDenom nir red blue)

def saviPx (nir red : ℚ) : ℚ := ((nir - red) / saviDenom nir red) * (1 + soilL)

/-- The EVI denominator the spec's words prescribe:
`NIR + 6·RED − 7.5·BLUE + 1 + ε`.  Stated from the spec for comparison
with `eviDenom`. -/
def eviDenomSpec (nir red blue : ℚ) : ℚ := nir + 6 * red - (15 / 2) * blue + 1 + eps

/-- The SAVI denominator the spec's words prescribe:
`NIR + RED + L + ε`.  Stated from the spec for comparison with
`saviDenom`. -/
def saviDenomSpec (nir red : ℚ) : ℚ := nir + red + soilL + eps

/-! ## NDVI statistics (`calculate_ndvi_from_s3` 357-394)

The stats step takes the low-resolution masked NDVI grid, keeps the
unmasked entries (`ndvi[~ndvi.mask]`), drops non-finite values
(`np.isfinite`), and either returns the zeroed summary or the
mean/std/min/max/count of what remains.  A pixel carries its value, its
mask flag, and a finiteness flag (ℚ has no NaN/inf of its own, so the
IEEE non-finiteness of a value is recorded as a flag). -/

structure Pixel where
  value : ℚ
  masked : Bool
  finite : Bool
deriving DecidableEq, Repr

/-- `ndvi[~ndvi.mask]` followed by `ndvi_valid[np.isfinite(ndvi_valid)]`. -/
def validValues (grid : List Pixel) : List ℚ :=
  ((grid.filter fun p => !p.masked).filter fun p => p.finite).map Pixel.value

def listSum (l : List ℚ) : ℚ := l.foldl (· + ·) 0

def listMean (l : List ℚ) : ℚ := listSum l / l.length

/-- Population variance, the square of `np.std`.  Recorded in place of
the standard deviation to stay inside ℚ; it is zero exactly when
`np.std` is zero. -/
def listVar (l : List ℚ) : ℚ := listSum (l.map fun v => (v - listMean l) ^ 2) / l.length

def listMin (l : List ℚ) : ℚ :=
  match l with
  | [] => 0
  | x :: xs => xs.foldl min x

def listMax (l : List ℚ) : ℚ :=
  match l with
  | [] => 0
  | x :: xs => xs.foldl max x

/-- `{ndvi_mean, ndvi_std (as its square), ndvi_min, ndvi_max,
pixels_count}`. -/
structure StatsSummary where
  mean : ℚ
  stdSq : ℚ
  vmin : ℚ
  vmax : ℚ
  count : ℕ
deriving DecidableEq, Repr

/-- The `ndvi_valid.size == 0` early return of `calculate_ndvi_from_s3`
(lines 365-373) followed by the real computation on the survivors. -/
def ndviSummary (grid : List Pixel) : StatsSummary :=
  let valid := validValues grid
  if valid.isEmpty then
    ⟨0, 0, 0, 0, 0⟩
  else
    ⟨listMean valid, listVar valid, listMin valid, listMax valid, valid.length⟩

/-! ## Resolution upsampling (`calculate_ndvi_from_s3` 298-308)

`np.repeat(np.repeat(a, F, axis=0), F, axis=1)` over a list-of-rows
grid, and the rasterio affine algebra behind
`window_transform * Affine.scale(1/F, 1/F)`. -/

/-- `np.repeat(a, F, axis=0)`: each row repeated `F` times in place. -/
def repeatAxis0 {α : Type*} (F : ℕ) (m : List (List α)) : List (List α) :=
  m.flatMap (List.replicate F)

/-- `np.repeat(a, F, axis=1)`: each entry of each row repeated `F`
times in place. -/
def repeatAxis1 {α : Type*} (F : ℕ) (m : List (List α)) : List (List α) :=
  m.map fun r => r.flatMap (List.replicate F)

/-- The source's double repeat: rows first, then columns. -/
def upsampleGrid {α : Type*} (F : ℕ) (m : List (List α)) : List (List α) :=
  repeatAxis1 F (repeatAxis0 F m)

/-- Entry `(i, j)` of a list-of-rows grid, `none` when out of range. -/
def cell {α : Type*} (m : List (List α)) (i j : ℕ) : Option α :=
  m[i]?.bind fun r => r[j]?

/-- `int(os.getenv('NDVI_UPSCALE_FACTOR', '3'))`: the configured
default. -/
def defaultUpscaleFactor : ℕ := 3

/-- A rasterio `Affine(a, b, c, d, e, f)`: column/row `(x, y)` maps to
`(a·x + b·y + c, d·x + e·y + f)`. `a`/`e` are the pixel sizes, `b`/`d`
the shears, `c`/`f` the origin. -/
structure AffineT where
  a : ℚ
  b : ℚ
  c : ℚ
  d : ℚ
  e : ℚ
  f : ℚ
deriving DecidableEq, Repr

/-- Composition `t1 * t2` of rasterio affine transforms (`t2` applied
first): the product of the two augmented 3×3 matrices. -/
def affineMul (t1 t2 : AffineT) : AffineT :=
  ⟨t1.a * t2.a + t1.b * t2.d,
   t1.a * t2.b + t1.b * t2.e,
   t1.a * t2.c + t1.b * t2.f + t1.c,
   t1.d * t2.a + t1.e * t2.d,
   t1.d * t2.b + t1.e * t2.e,
   t1.d * t2.c + t1.e * t2.f + t1.f⟩

/-- `Affine.scale(sx, sy)`. -/
def affineScale (sx sy : ℚ) : AffineT := ⟨sx, 0, 0, 0, sy, 0⟩

/-- `new_transform = window_transform * Affine.scale(1/upscale_factor,
1/upscale_factor)` (line 307). -/
def upsampleTransform (F : ℕ) (t : AffineT) : AffineT :=
  affineMul t (affineScale (1 / (F : ℚ)) (1 / (F : ℚ)))

/-! ## Colour mapper (`image_generator.py`)

Per-pixel ramps over ℚ.  Python `int()` truncates toward zero, which
`pyInt` reproduces (`⌊q⌋` for nonnegative `q`, `⌈q⌉` for negative). -/

/-- Python `int(q)`: truncation toward zero. -/
def pyInt (q : ℚ) : ℤ := if q < 0 then -⌊-q⌋ else ⌊q⌋

structure RGBA where
  r : ℤ
  g : ℤ
  b : ℤ
  a : ℤ
deriving DecidableEq, Repr

/-- `_vegetation_color`, branch `val < 0.3`: red→yellow,
`ratio = (val + 1) / 1.3`. -/
def vegBranchLow (val : ℚ) : RGBA :=
  ⟨255, pyInt (255 * ((val + 1) / (13 / 10))), 0, 255⟩

/-- `_vegetation_color`, branch `0.3 ≤ val < 0.6`: yellow→green,
`ratio = (val - 0.3) / 0.3`. -/
def vegBranchMid (val : ℚ) : RGBA :=
  ⟨pyInt (255 * (1 - (val - 3 / 10) / (3 / 10))), 255, 0, 255⟩

/-- `_vegetation_color`, branch `val ≥ 0.6`: green intensity
`int(100 + (val - 0.6) * 387.5)` capped at 255. -/
def vegBranchHigh (val : ℚ) : RGBA :=
  ⟨0, min 255 (pyInt (100 + (val - 6 / 10) * (775 / 2))), 0, 255⟩

/-- `_vegetation_color(val)`. -/
def vegetationColor (val : ℚ) : RGBA :=
  if val < 3 / 10 then vegBranchLow val
  else if val < 6 / 10 then vegBranchMid val
  else vegBranchHigh val

/-- `_water_color`, branch `val < 0`: red→yellow, `ratio = (val+1)/1.0`. -/
def waterBranchLow (val : ℚ) : RGBA :=
  ⟨255, pyInt (255 * ((val + 1) / 1)), 0, 255⟩

/-- `_water_color`, branch `0 ≤ val < 0.2`: yellow→cyan, `ratio = val/0.2`. -/
def waterBranchYC (val : ℚ) : RGBA :=
  ⟨pyInt (255 * (1 - val / (2 / 10))), 255, pyInt (255 * (val / (2 / 10))), 255⟩

/-- `_water_color`, branch `0.2 ≤ val < 0.4`: cyan→blue,
`ratio = (val - 0.2)/0.2`. -/
def waterBranchCB (val : ℚ) : RGBA :=
  ⟨0, pyInt (255 * (1 - (val - 2 / 10) / (2 / 10))), 255, 255⟩

/-- `_water_color`, branch `val ≥ 0.4`: deep blue,
`intensity = max(100, int(255 * (1 - (val - 0.4)/0.6)))`, blue channel
`min(255, intensity + 50)`. -/
def waterBranchHigh (val : ℚ) : RGBA :=
  ⟨0, 0, min 255 (max 100 (pyInt (255 * (1 - (val - 4 / 10) / (6 / 10)))) + 50), 255⟩

/-- `_water_color(val)`. -/
def waterColor (val : ℚ) : RGBA :=
  if val < 0 then waterBranchLow val
  else if val < 2 / 10 then waterBranchYC val
  else if val < 4 / 10 then waterBranchCB val
  else waterBranchHigh val

/-- `_moisture_color`, branch `val < 0`: brown→yellow,
`[165 + int(90*ratio), int(100 + 155*ratio), 42]` with
`ratio = (val+1)/1.0`. -/
def moistBranchLow (val : ℚ) : RGBA :=
  ⟨165 + pyInt (90 * ((val + 1) / 1)), pyInt (100 + 155 * ((val + 1) / 1)), 42, 255⟩

/-- `_moisture_color`, branch `0 ≤ val < 0.3`: yellow→green,
`ratio = val/0.3`. -/
def moistBranchYG (val : ℚ) : RGBA :=
  ⟨pyInt (255 * (1 - val / (3 / 10))), 255, pyInt (128 * (val / (3 / 10))), 255⟩

/-- `_moisture_color`, branch `0.3 ≤ val < 0.5`: green→teal,
`ratio = (val - 0.3)/0.2`. -/
def moistBranchGT (val : ℚ) : RGBA :=
  ⟨0, 255, pyInt (128 + 127 * ((val - 3 / 10) / (2 / 10))), 255⟩

/-- `_moisture_color`, branch `val ≥ 0.5`: teal→blue,
`ratio = (val - 0.5)/0.5`. -/
def moistBranchHigh (val : ℚ) : RGBA :=
  ⟨0, pyInt (255 * (1 - (val - 5 / 10) / (5 / 10))), 255, 255⟩

/-- `_moisture_color(val)`. -/
def moistureColor (val : ℚ) : RGBA :=
  if val < 0 then moistBranchLow val
  else if val < 3 / 10 then moistBranchYG val
  else if val < 5 / 10 then moistBranchGT val
  else moistBranchHigh val

/-- One pixel of `generate_index_image`'s colour loop (lines 35-51):
invalid pixels keep the zero-initialised `[0, 0, 0, 0]`, valid pixels
dispatch on the index family; an unknown family string leaves the
zero-initialised pixel untouched. -/
def colorPixel (indexType : String) (valid : Bool) (val : ℚ) : RGBA :=
  if valid then
    if indexType = "ndvi" ∨ indexType = "evi" ∨ indexType = "savi" then
      vegetationColor val
    else if indexType = "ndwi" then waterColor val
    else if indexType = "ndmi" then moistureColor val
    else ⟨0, 0, 0, 0⟩
  else ⟨0, 0, 0, 0⟩

/-! ## Minimum-size upscale of the rendered bitmap
(`generate_index_image` 56-60, identical in `generate_ndvi_image`
173-177) -/

/-- `scale_factor = max(100 // width, 100 // height, 2)` — Python
floor division. -/
def bitmapScaleFactor (width height : ℕ) : ℕ :=
  max (max (100 / width) (100 / height)) 2

/-- The `if width < 100 or height < 100` resize: the new
`(width, height)` of the PIL image. -/
def upscaledSize (width height : ℕ) : ℕ × ℕ :=
  if width < 100 ∨ height < 100 then
    (width * bitmapScaleFactor width height, height * bitmapScaleFactor width height)
  else (width, height)

/-! ## Date-range parsing (`process_parcel_ndvi` 427-443)

Datetimes are kept symbolic: the code only ever produces "now", "now
minus N days", or a calendar date parsed by
`strptime(..., '%Y-%m-%d')`. -/

inductive DateTimeV where
  | now
  | nowMinusDays (days : ℕ)
  | ofYmd (y m d : ℕ)
deriving DecidableEq, Repr

/-- Gregorian month lengths, as `strptime` validates day-of-month. -/
def daysInMonth (y m : ℕ) : ℕ :=
  if m = 2 then
    if y % 4 = 0 ∧ (y % 100 ≠ 0 ∨ y % 400 = 0) then 29 else 28
  else if m = 4 ∨ m = 6 ∨ m = 9 ∨ m = 11 then 30
  else 31

/-- Python `s.split(sep)` for a one-character separator: splits on
every occurrence, keeping empty pieces (`"".split(',') == ['']`). -/
def splitOnChar (sep : Char) : List Char → List (List Char)
  | [] => [[]]
  | c :: rest =>
    if c = sep then [] :: splitOnChar sep rest
    else
      match splitOnChar sep rest with
      | [] => [[c]]
      | g :: gs => (c :: g) :: gs

/-- Python `s.strip()`: whitespace removed from both ends. -/
def stripChars (cs : List Char) : List Char :=
  ((cs.dropWhile Char.isWhitespace).reverse.dropWhile Char.isWhitespace).reverse

/-- A nonempty all-digit field read as a number (the way `strptime`
consumes `%Y`/`%m`/`%d` fields). -/
def digitsToNat? (cs : List Char) : Option ℕ :=
  if cs.isEmpty then none
  else if cs.all Char.isDigit then
    some (cs.foldl (fun n c => n * 10 + (c.toNat - 48)) 0)
  else none

/-- `datetime.strptime(s, '%Y-%m-%d')`: three dash-separated decimal
fields forming a valid calendar date, else a `ValueError` (`none`). -/
def strptimeYmd (cs : List Char) : Option DateTimeV :=
  match splitOnChar '-' cs with
  | [ys, ms, ds] =>
    match digitsToNat? ys, digitsToNat? ms, digitsToNat? ds with
    | some y, some m, some d =>
      if 1 ≤ y ∧ y ≤ 9999 ∧ 1 ≤ m ∧ m ≤ 12 ∧ 1 ≤ d ∧ d ≤ daysInMonth y m then
        some (.ofYmd y m d)
      else none
    | _, _, _ => none
  | _ => none

/-- `int(os.getenv('SCENE_SEARCH_DAYS', '30'))`: the configured default
search window. -/
def defaultSearchDays : ℕ := 30

inductive DateRangeResult where
  | window (startD endD : DateTimeV)
  | raised (exc : String)
deriving DecidableEq, Repr

/-- The date-range block of `process_parcel_ndvi` (lines 427-443).  The
local `default_days` is assigned only on the `not date_range` path; the
`except ValueError` handler reads it after a failed parse of a supplied
string, so that path raises `UnboundLocalError` instead of producing
the fallback `start_date = end_date - timedelta(days=default_days)`. -/
def parseDateRange (dateRange : Option (List Char)) : DateRangeResult :=
  match dateRange with
  | none => .window (.nowMinusDays defaultSearchDays) .now
  | some dr =>
    if dr.isEmpty then .window (.nowMinusDays defaultSearchDays) .now
    else
      let dates := splitOnChar ',' dr
      match strptimeYmd (stripChars (dates.headD [])) with
      | none => .raised "UnboundLocalError: default_days"
      | some startD =>
        if dates.length > 1 then
          match strptimeYmd (stripChars (dates.getLastD [])) with
          | none => .raised "UnboundLocalError: default_days"
          | some endD => .window startD endD
        else .window startD .now

/-! ## Claims about scene selection and the request pipeline -/

/-- C5: in `least_cloud` mode (the default), for every non-empty scene
list the returned scene's tuple `(cloud_cover_pct, −acquisition_timestamp)`
(missing cloud cover defaulting to 100) is lexicographically minimal:
no candidate in the list has a lexicographically smaller tuple, so
least cloud wins and the most recent timestamp breaks ties. -/
theorem leastCloud_selects_lex_minimal (items : List Scene) (h : items ≠ []) :
    ∃ sel, selectScene .leastCloud items = some sel ∧ sel ∈ items ∧
      ∀ s ∈ items,
        ¬ (toLex (cloudOf s, -s.acquisitionTs) < toLex (cloudOf sel, -sel.acquisitionTs)) := by
  obtain ⟨sel, h1, h2, h3⟩ := minBy_spec leastCloudKey items h
  exact ⟨sel, h1, h2, fun s hs => not_lt.mpr (h3 s hs)⟩

theorem leastCloud_selects_lex_minimal_witness :
    ([(⟨"S1", some 20, 100⟩ : Scene), ⟨"S2", some 5, 50⟩] ≠ []) ∧
      (∃ sel, selectScene .leastCloud [(⟨"S1", some 20, 100⟩ : Scene), ⟨"S2", some 5, 50⟩]
          = some sel ∧
        sel ∈ [(⟨"S1", some 20, 100⟩ : Scene), ⟨"S2", some 5, 50⟩] ∧
        ∀ s ∈ [(⟨"S1", some 20, 100⟩ : Scene), ⟨"S2", some 5, 50⟩],
          ¬ (toLex (cloudOf s, -s.acquisitionTs) < toLex (cloudOf sel, -sel.acquisitionTs))) :=
  ⟨by simp, leastCloud_selects_lex_minimal _ (by simp)⟩

/-- C1 counterexample: with two scenes of equal cloud cover (10) at
timestamps 0 and 86400 and current time 172800, `balanced` mode returns
the newer scene, yet the spec's score `0.6·cloud − 0.4·age_in_days` is
strictly smaller on the older scene — the returned scene does not
minimize the spec's score. -/
theorem balanced_spec_score_counterexample :
    selectScene .balanced [(⟨"A", some 10, 0⟩ : Scene), ⟨"B", some 10, 86400⟩]
        = some ⟨"B", some 10, 86400⟩ ∧
      balancedSpecScore 172800 ⟨"A", some 10, 0⟩ <
        balancedSpecScore 172800 ⟨"B", some 10, 86400⟩ := by
  constructor
  · norm_num [selectScene, minBy, balancedKey, cloudOf]
  · norm_num [balancedSpecScore, ageDays, cloudOf]

/-- C1 (amended): in `balanced` mode, for every non-empty scene list
the returned scene minimizes `0.6 × cloud_cover_pct + 0.4 × age_in_days`
(missing cloud cover defaulting to 100) — equivalently the code's key
`0.6·cloud − 0.4·(timestamp/86400)`; the sign of the age term in the
spec's formula is flipped. -/
theorem balanced_selects_min_weighted_age (now : ℚ) (items : List Scene)
    (h : items ≠ []) :
    ∃ sel, selectScene .balanced items = some sel ∧ sel ∈ items ∧
      ∀ s ∈ items,
        (6 / 10) * cloudOf sel + (4 / 10) * ageDays now sel ≤
          (6 / 10) * cloudOf s + (4 / 10) * ageDays now s := by
  obtain ⟨sel, h1, h2, h3⟩ := minBy_spec balancedKey items h
  refine ⟨sel, h1, h2, fun s hs => ?_⟩
  have key_eq : ∀ x : Scene,
      (6 / 10) * cloudOf x + (4 / 10) * ageDays now x
        = balancedKey x + (4 / 10) * (now / 86400) := by
    intro x
    unfold balancedKey ageDays
    ring
  rw [key_eq sel, key_eq s]
  exact add_le_add_right (h3 s hs) _

theorem balanced_selects_min_weighted_age_witness :
    ([(⟨"A", some 5, 0⟩ : Scene)] ≠ []) ∧
      (∃ sel, selectScene .balanced [(⟨"A", some 5, 0⟩ : Scene)] = some sel ∧
        sel ∈ [(⟨"A", some 5, 0⟩ : Scene)] ∧
        ∀ s ∈ [(⟨"A", some 5, 0⟩ : Scene)],
          (6 / 10) * cloudOf sel + (4 / 10) * ageDays 0 sel ≤
            (6 / 10) * cloudOf s + (4 / 10) * ageDays 0 s) :=
  ⟨by simp, balanced_selects_min_weighted_age 0 _ (by simp)⟩

/-- C9: an empty catalog search result makes the pipeline return the
error-status payload whose message is the human-readable
"No Sentinel-2 imagery found for this location and date range" — a
returned value, never an exception (`processScenes` is total). -/
theorem empty_search_returns_no_imagery {α : Type} (mode : SelectionMode)
    (computeStats : Scene → α) :
    processScenes mode computeStats [] = .errorPayload noImageryMessage noImageryInfo ∧
      noImageryMessage = "No Sentinel-2 imagery found for this location and date range" :=
  ⟨rfl, rfl⟩

/-- C4: the claim says a malformed `date_range` string falls back
silently to the default window; in the code the `except ValueError`
handler reads the local `default_days`, which is assigned only on the
no-date-range path, so the handler itself raises `UnboundLocalError`
instead of producing the fallback window.  Evaluated at the failing
input `"garbage"`. -/
theorem malformed_date_range_raises :
    parseDateRange (some "garbage".toList) = .raised "UnboundLocalError: default_days" ∧
      parseDateRange none = .window (.nowMinusDays defaultSearchDays) .now ∧
      parseDateRange (some "garbage".toList) ≠ parseDateRange none := by
  refine ⟨by decide, rfl, by decide⟩

/-! ## Claims about statistics, index denominators and the bitmap
upscale -/

/-- C7: when every pixel of the grid is masked or non-finite, the
statistics step returns the zeroed summary — mean, std, min, max all 0
and valid-pixel count 0 — as an ordinary return value. -/
theorem all_invalid_grid_zero_summary (grid : List Pixel)
    (h : ∀ p ∈ grid, p.masked = true ∨ p.finite = false) :
    ndviSummary grid = ⟨0, 0, 0, 0, 0⟩ := by
  have hv : validValues grid = [] := by
    unfold validValues
    rw [List.map_eq_nil_iff, List.filter_eq_nil_iff]
    intro p hp
    have hp' := List.mem_filter.mp hp
    rcases h p hp'.1 with hm | hf
    · exact absurd hp'.2 (by simp [hm])
    · simp [hf]
  simp [ndviSummary, hv]

theorem all_invalid_grid_zero_summary_witness :
    (∀ p ∈ [(⟨5, true, true⟩ : Pixel), ⟨7, false, false⟩],
        p.masked = true ∨ p.finite = false) ∧
      ndviSummary [(⟨5, true, true⟩ : Pixel), ⟨7, false, false⟩] = ⟨0, 0, 0, 0, 0⟩ :=
  ⟨by decide, all_invalid_grid_zero_summary _ (by decide)⟩

/-- C2 counterexample: the EVI denominator written in the code is
exactly zero at the nonnegative reflectances NIR = 0, RED = 0,
BLUE = 2/15 — the zero-denominator case is reachable — while the
denominator the spec prescribes (with ε) is nonzero there; the SAVI
denominator likewise differs from the spec's ε-form. -/
theorem evi_denominator_zero_counterexample :
    eviDenom 0 0 (2 / 15) = 0 ∧ eviDenomSpec 0 0 (2 / 15) ≠ 0 ∧
      saviDenom 1 2 ≠ saviDenomSpec 1 2 := by
  refine ⟨by unfold eviDenom; norm_num, by unfold eviDenomSpec eps; norm_num, ?_⟩
  unfold saviDenom saviDenomSpec soilL eps
  norm_num

/-- C2 (amended): ε = 1e-8 is added to the NDVI, NDWI and NDMI
denominators, which are therefore strictly positive for nonnegative
band values; the EVI and SAVI denominators carry no ε — SAVI's is
positive anyway because of L = 0.5, while EVI's reaches exactly zero at
the nonnegative bands NIR = 0, RED = 0, BLUE = 2/15. -/
theorem index_denominators_guarded (nir red green swir : ℚ)
    (h1 : 0 ≤ nir) (h2 : 0 ≤ red) (h3 : 0 ≤ green) (h4 : 0 ≤ swir) :
    0 < ndviDenom nir red ∧ 0 < ndwiDenom green nir ∧ 0 < ndmiDenom nir swir ∧
      0 < saviDenom nir red ∧ eviDenom 0 0 (2 / 15) = 0 := by
  refine ⟨?_, ?_, ?_, ?_, by unfold eviDenom; norm_num⟩
  · unfold ndviDenom eps; linarith
  · unfold ndwiDenom eps; linarith
  · unfold ndmiDenom eps; linarith
  · unfold saviDenom soilL; linarith

theorem index_denominators_guarded_witness :
    ((0 : ℚ) ≤ 1 ∧ (0 : ℚ) ≤ 2 ∧ (0 : ℚ) ≤ 3 ∧ (0 : ℚ) ≤ 4) ∧
      (0 < ndviDenom 1 2 ∧ 0 < ndwiDenom 3 1 ∧ 0 < ndmiDenom 1 4 ∧
        0 < saviDenom 1 2 ∧ eviDenom 0 0 (2 / 15) = 0) :=
  ⟨by norm_num,
   index_denominators_guarded 1 2 3 4 (by norm_num) (by norm_num) (by norm_num) (by norm_num)⟩

/-- C6 counterexample: a 30×30 colored bitmap gets
`scale_factor = max(100 // 30, 100 // 30, 2) = 3`, so the resized
bitmap is 90×90 and `min(w, h) × factor = 90 < 100` — the chosen factor
is not one that brings the smaller dimension to at least 100 (the
smallest such factor would be 4). -/
theorem bitmap_upscale_counterexample :
    bitmapScaleFactor 30 30 = 3 ∧ upscaledSize 30 30 = (90, 90) ∧
      min 30 30 * bitmapScaleFactor 30 30 < 100 ∧
      min 30 30 * 4 ≥ 100 := by decide

/-- C6 (amended): when either dimension is below 100, the bitmap is
resized to `(w·factor, h·factor)` with
`factor = max(100 // w, 100 // h, 2) = max(100 // min(w,h), 2)` (floor
division), which is at least 2; because of the floor the smaller
dimension may land below 100 — only
`100 < min(w,h)·factor + min(w,h)` is guaranteed. -/
theorem bitmap_upscale_factor_floor (w h : ℕ) (hw : 0 < w) (hh : 0 < h)
    (hs : w < 100 ∨ h < 100) :
    bitmapScaleFactor w h = max (100 / min w h) 2 ∧
      2 ≤ bitmapScaleFactor w h ∧
      upscaledSize w h = (w * bitmapScaleFactor w h, h * bitmapScaleFactor w h) ∧
      100 < min w h * bitmapScaleFactor w h + min w h := by
  have hm : 0 < min w h := lt_min hw hh
  have hmax : max (100 / w) (100 / h) = 100 / min w h := by
    rcases le_total w h with hwh | hwh
    · rw [min_eq_left hwh]
      exact max_eq_left (Nat.div_le_div_left hwh hw)
    · rw [min_eq_right hwh]
      exact max_eq_right (Nat.div_le_div_left hwh hh)
  have hfac : bitmapScaleFactor w h = max (100 / min w h) 2 := by
    unfold bitmapScaleFactor
    rw [hmax]
  refine ⟨hfac, ?_, ?_, ?_⟩
  · rw [hfac]; exact le_max_right _ _
  · unfold upscaledSize
    rw [if_pos hs]
  · have hdm := Nat.div_add_mod 100 (min w h)
    have hmod := Nat.mod_lt 100 hm
    have hle : min w h * (100 / min w h) ≤ min w h * bitmapScaleFactor w h :=
      Nat.mul_le_mul_left _ (by rw [hfac]; exact le_max_left _ _)
    calc 100 = min w h * (100 / min w h) + 100 % min w h := hdm.symm
      _ < min w h * (100 / min w h) + min w h := Nat.add_lt_add_left hmod _
      _ ≤ min w h * bitmapScaleFactor w h + min w h := Nat.add_le_add_right hle _

theorem bitmap_upscale_factor_floor_witness :
    (0 < 30 ∧ 0 < 50 ∧ (30 < 100 ∨ 50 < 100)) ∧
      (bitmapScaleFactor 30 50 = max (100 / min 30 50) 2 ∧
        2 ≤ bitmapScaleFactor 30 50 ∧
        upscaledSize 30 50 = (30 * bitmapScaleFactor 30 50, 50 * bitmapScaleFactor 30 50) ∧
        100 < min 30 50 * bitmapScaleFactor 30 50 + min 30 50) :=
  ⟨by decide, bitmap_upscale_factor_floor 30 50 (by decide) (by decide) (by decide)⟩

/-! ## Claims about resolution upsampling -/

theorem flatMap_replicate_getElem {α : Type*} (F : ℕ) (hF : 0 < F) (l : List α)
    (i : ℕ) : (l.flatMap (List.replicate F))[i]? = l[i / F]? := by
  induction l generalizing i with
  | nil => simp
  | cons x xs ih =>
    rw [List.flatMap_cons, List.getElem?_append, List.length_replicate]
    by_cases hi : i < F
    · rw [if_pos hi, List.getElem?_replicate, if_pos hi, Nat.div_eq_of_lt hi,
        List.getElem?_cons_zero]
    · push_neg at hi
      rw [if_neg (not_lt.mpr hi), ih]
      have hdiv : i / F = (i - F) / F + 1 := by
        conv_lhs => rw [← Nat.sub_add_cancel hi]
        exact Nat.add_div_right _ hF
      rw [hdiv, List.getElem?_cons_succ]

theorem flatMap_replicate_length {α : Type*} (F : ℕ) (l : List α) :
    (l.flatMap (List.replicate F)).length = F * l.length := by
  rw [List.length_flatMap]
  have hmap : List.map (List.length ∘ List.replicate F) l = List.map (fun _ => F) l := by
    simp [Function.comp_def]
  rw [hmap, List.map_const', List.sum_replicate, smul_eq_mul, mul_comm]

/-- C8: upsampling a `rows × cols` index grid by an integer factor
`F ≥ 1` (default `NDVI_UPSCALE_FACTOR = 3`) yields an
`(F·rows) × (F·cols)` grid whose pixel `(i, j)` is the input pixel
`(⌊i/F⌋, ⌊j/F⌋)`, and the new transform
`window_transform * Affine.scale(1/F, 1/F)` has the pixel-size scale
terms of the original multiplied by `1/F` and its origin terms
unchanged. -/
theorem upsample_block_replication (F rows cols : ℕ) (hF : 1 ≤ F)
    (m : List (List ℚ)) (hrows : m.length = rows)
    (hcols : ∀ r ∈ m, r.length = cols) (t : AffineT) :
    (upsampleGrid F m).length = F * rows ∧
      (∀ r ∈ upsampleGrid F m, r.length = F * cols) ∧
      (∀ i j, cell (upsampleGrid F m) i j = cell m (i / F) (j / F)) ∧
      (upsampleTransform F t).a = t.a * (1 / F) ∧
      (upsampleTransform F t).e = t.e * (1 / F) ∧
      (upsampleTransform F t).c = t.c ∧
      (upsampleTransform F t).f = t.f ∧
      defaultUpscaleFactor = 3 := by
  have hF' : 0 < F := hF
  refine ⟨?_, ?_, ?_, ?_, ?_, ?_, ?_, rfl⟩
  · unfold upsampleGrid repeatAxis1 repeatAxis0
    rw [List.length_map, flatMap_replicate_length, hrows]
  · intro r hr
    unfold upsampleGrid repeatAxis1 at hr
    obtain ⟨r0, hr0, rfl⟩ := List.mem_map.mp hr
    unfold repeatAxis0 at hr0
    obtain ⟨r1, hr1, hrep⟩ := List.mem_flatMap.mp hr0
    rw [List.eq_of_mem_replicate hrep, flatMap_replicate_length, hcols r1 hr1]
  · intro i j
    unfold upsampleGrid repeatAxis1 repeatAxis0 cell
    rw [List.getElem?_map, flatMap_replicate_getElem F hF']
    cases hrow : m[i / F]? with
    | none => rfl
    | some r =>
      simp only [Option.map_some', Option.some_bind]
      exact flatMap_replicate_getElem F hF' r j
  · unfold upsampleTransform affineMul affineScale
    ring
  · unfold upsampleTransform affineMul affineScale
    ring
  · unfold upsampleTransform affineMul affineScale
    ring
  · unfold upsampleTransform affineMul affineScale
    ring

theorem upsample_block_replication_witness :
    (1 ≤ 2 ∧ ([[(1 : ℚ), 2]] : List (List ℚ)).length = 1 ∧
        (∀ r ∈ ([[(1 : ℚ), 2]] : List (List ℚ)), r.length = 2)) ∧
      ((upsampleGrid 2 [[(1 : ℚ), 2]]).length = 2 * 1 ∧
        (∀ r ∈ upsampleGrid 2 [[(1 : ℚ), 2]], r.length = 2 * 2) ∧
        (∀ i j, cell (upsampleGrid 2 [[(1 : ℚ), 2]]) i j
            = cell [[(1 : ℚ), 2]] (i / 2) (j / 2)) ∧
        (upsampleTransform 2 ⟨1, 0, 5, 0, -1, 7⟩).a = (1 : ℚ) * (1 / 2) ∧
        (upsampleTransform 2 ⟨1, 0, 5, 0, -1, 7⟩).e = (-1 : ℚ) * (1 / 2) ∧
        (upsampleTransform 2 ⟨1, 0, 5, 0, -1, 7⟩).c = (5 : ℚ) ∧
        (upsampleTransform 2 ⟨1, 0, 5, 0, -1, 7⟩).f = (7 : ℚ) ∧
        defaultUpscaleFactor = 3) :=
  ⟨⟨by norm_num, rfl, by simp⟩,
   upsample_block_replication 2 1 2 (by norm_num) [[(1 : ℚ), 2]] rfl (by simp) _⟩

/-! ## Claims about the colour ramps -/

theorem pyInt_eq_floor (q : ℚ) (h : 0 ≤ q) : pyInt q = ⌊q⌋ := by
  unfold pyInt
  rw [if_neg (not_lt.mpr h)]

theorem pyInt_nonneg (q : ℚ) (h : 0 ≤ q) : 0 ≤ pyInt q := by
  rw [pyInt_eq_floor q h]
  exact Int.floor_nonneg.mpr h

theorem pyInt_le (q : ℚ) (n : ℤ) (h : q ≤ (n : ℚ)) : pyInt q ≤ n := by
  unfold pyInt
  split_ifs with hq
  · have h1 : (-n : ℤ) ≤ ⌊-q⌋ := Int.le_floor.mpr (by push_cast; linarith)
    linarith
  · calc ⌊q⌋ ≤ ⌊(n : ℚ)⌋ := Int.floor_le_floor h
      _ = n := Int.floor_intCast n

/-- C3 counterexample: at the vegetation breakpoint 0.6 the color
returned (green channel `int(100 + 0·387.5) = 100`) differs from the
limit of the yellow→green branch below it (green 255, red
`int(255·(1−1)) = 0`), and at the moisture breakpoint 0 the returned
color (blue 0) differs from the limit of the brown→yellow branch below
it (blue fixed at 42) — the ramps are not continuous at these two
breakpoints. -/
theorem ramp_discontinuity_counterexample :
    vegetationColor (6 / 10) ≠ vegBranchMid (6 / 10) ∧
      moistureColor 0 ≠ moistBranchLow 0 := by
  constructor
  · unfold vegetationColor vegBranchMid vegBranchHigh pyInt
    norm_num [RGBA.mk.injEq]
  · unfold moistureColor moistBranchLow moistBranchYG pyInt
    norm_num [RGBA.mk.injEq]

/-- C3 (amended): the per-pixel ramps are continuous at the breakpoints
vegetation 0.3, water 0, 0.2 and 0.4, and moisture 0.3 and 0.5 — at
each, the branch that includes the breakpoint returns exactly the
limiting color of the adjacent lower branch (its affine ramp evaluated
at the breakpoint) — but not at vegetation 0.6 (green jumps from 255 to
100) nor at moisture 0 (blue jumps from 42 to 0). -/
theorem ramp_continuity_at_breakpoints :
    vegetationColor (3 / 10) = vegBranchLow (3 / 10) ∧
      waterColor 0 = waterBranchLow 0 ∧
      waterColor (2 / 10) = waterBranchYC (2 / 10) ∧
      waterColor (4 / 10) = waterBranchCB (4 / 10) ∧
      moistureColor (3 / 10) = moistBranchYG (3 / 10) ∧
      moistureColor (5 / 10) = moistBranchGT (5 / 10) ∧
      vegetationColor (6 / 10) ≠ vegBranchMid (6 / 10) ∧
      moistureColor 0 ≠ moistBranchLow 0 := by
  refine ⟨?_, ?_, ?_, ?_, ?_, ?_, ?_, ?_⟩
  · unfold vegetationColor vegBranchLow vegBranchMid pyInt
    norm_num
  · unfold waterColor waterBranchLow waterBranchYC pyInt
    norm_num
  · unfold waterColor waterBranchYC waterBranchCB pyInt
    norm_num
  · unfold waterColor waterBranchCB waterBranchHigh pyInt
    norm_num
  · unfold moistureColor moistBranchYG moistBranchGT pyInt
    norm_num
  · unfold moistureColor moistBranchGT moistBranchHigh pyInt
    norm_num
  · unfold vegetationColor vegBranchMid vegBranchHigh pyInt
    norm_num [RGBA.mk.injEq]
  · unfold moistureColor moistBranchLow moistBranchYG pyInt
    norm_num [RGBA.mk.injEq]

/-! ## Claim about colour component safety (uint8 buffer) -/

/-- Every channel in `[0, 255]` and the alpha channel exactly 255. -/
def rgbaInRange (c : RGBA) : Prop :=
  0 ≤ c.r ∧ c.r ≤ 255 ∧ 0 ≤ c.g ∧ c.g ≤ 255 ∧ 0 ≤ c.b ∧ c.b ≤ 255 ∧ c.a = 255

theorem rgbaInRange_mk (r g b : ℤ) (hr1 : 0 ≤ r) (hr2 : r ≤ 255) (hg1 : 0 ≤ g)
    (hg2 : g ≤ 255) (hb1 : 0 ≤ b) (hb2 : b ≤ 255) :
    rgbaInRange ⟨r, g, b, 255⟩ :=
  ⟨hr1, hr2, hg1, hg2, hb1, hb2, rfl⟩

theorem vegetationColor_inRange (v : ℚ) (h1 : -1 ≤ v) (h2 : v ≤ 1) :
    rgbaInRange (vegetationColor v) := by
  unfold vegetationColor
  split_ifs with ha hb
  · unfold vegBranchLow
    exact rgbaInRange_mk _ _ _ (by norm_num) (by norm_num)
      (pyInt_nonneg _ (by linarith)) (pyInt_le _ 255 (by push_cast; linarith))
      (by norm_num) (by norm_num)
  · unfold vegBranchMid
    exact rgbaInRange_mk _ _ _
      (pyInt_nonneg _ (by push_neg at ha; nlinarith)) (pyInt_le _ 255 (by push_cast; nlinarith))
      (by norm_num) (by norm_num) (by norm_num) (by norm_num)
  · unfold vegBranchHigh
    push_neg at ha hb
    exact rgbaInRange_mk _ _ _ (by norm_num) (by norm_num)
      (le_min (by norm_num) (pyInt_nonneg _ (by nlinarith)))
      (min_le_left _ _) (by norm_num) (by norm_num)

theorem waterColor_inRange (v : ℚ) (h1 : -1 ≤ v) (h2 : v ≤ 1) :
    rgbaInRange (waterColor v) := by
  unfold waterColor
  split_ifs with ha hb hc
  · unfold waterBranchLow
    exact rgbaInRange_mk _ _ _ (by norm_num) (by norm_num)
      (pyInt_nonneg _ (by linarith)) (pyInt_le _ 255 (by push_cast; linarith))
      (by norm_num) (by norm_num)
  · unfold waterBranchYC
    push_neg at ha
    exact rgbaInRange_mk _ _ _
      (pyInt_nonneg _ (by nlinarith)) (pyInt_le _ 255 (by push_cast; nlinarith))
      (by norm_num) (by norm_num)
      (pyInt_nonneg _ (by nlinarith)) (pyInt_le _ 255 (by push_cast; nlinarith))
  · unfold waterBranchCB
    push_neg at ha hb
    exact rgbaInRange_mk _ _ _ (by norm_num) (by norm_num)
      (pyInt_nonneg _ (by nlinarith)) (pyInt_le _ 255 (by push_cast; nlinarith))
      (by norm_num) (by norm_num)
  · unfold waterBranchHigh
    push_neg at ha hb hc
    refine rgbaInRange_mk _ _ _ (by norm_num) (by norm_num) (by norm_num) (by norm_num)
      (le_min (by norm_num) ?_) (min_le_left _ _)
    have h100 : (100 : ℤ) ≤ max 100 (pyInt (255 * (1 - (v - 4 / 10) / (6 / 10)))) :=
      le_max_left _ _
    linarith

theorem moistureColor_inRange (v : ℚ) (h1 : -1 ≤ v) (h2 : v ≤ 1) :
    rgbaInRange (moistureColor v) := by
  unfold moistureColor
  split_ifs with ha hb hc
  · unfold moistBranchLow
    refine rgbaInRange_mk _ _ _ ?_ ?_
      (pyInt_nonneg _ (by nlinarith)) (pyInt_le _ 255 (by push_cast; nlinarith))
      (by norm_num) (by norm_num)
    · have := pyInt_nonneg (90 * ((v + 1) / 1)) (by nlinarith)
      linarith
    · have := pyInt_le (90 * ((v + 1) / 1)) 90 (by push_cast; nlinarith)
      linarith
  · unfold moistBranchYG
    push_neg at ha
    exact rgbaInRange_mk _ _ _
      (pyInt_nonneg _ (by nlinarith)) (pyInt_le _ 255 (by push_cast; nlinarith))
      (by norm_num) (by norm_num)
      (pyInt_nonneg _ (by nlinarith)) (pyInt_le _ 255 (by push_cast; nlinarith))
  · unfold moistBranchGT
    push_neg at ha hb
    exact rgbaInRange_mk _ _ _ (by norm_num) (by norm_num) (by norm_num) (by norm_num)
      (pyInt_nonneg _ (by nlinarith)) (pyInt_le _ 255 (by push_cast; nlinarith))
  · unfold moistBranchHigh
    push_neg at ha hb hc
    exact rgbaInRange_mk _ _ _ (by norm_num) (by norm_num)
      (pyInt_nonneg _ (by nlinarith)) (pyInt_le _ 255 (by push_cast; nlinarith))
      (by norm_num) (by norm_num)

/-- C10: for every index value `v ∈ [−1, 1]` each per-pixel color
function returns a 4-component RGBA with every component in `[0, 255]`
and alpha exactly 255 — the `uint8` image buffer assignment cannot
overflow — and an invalid (masked) pixel always receives exactly
`[0, 0, 0, 0]` whatever the index family. -/
theorem color_components_in_uint8_range (v : ℚ) (h1 : -1 ≤ v) (h2 : v ≤ 1) :
    rgbaInRange (vegetationColor v) ∧ rgbaInRange (waterColor v) ∧
      rgbaInRange (moistureColor v) ∧
      ∀ indexType : String, colorPixel indexType false v = ⟨0, 0, 0, 0⟩ :=
  ⟨vegetationColor_inRange v h1 h2, waterColor_inRange v h1 h2,
   moistureColor_inRange v h1 h2, fun _ => rfl⟩

theorem color_components_in_uint8_range_witness :
    ((-1 : ℚ) ≤ 0 ∧ (0 : ℚ) ≤ 1) ∧
      (rgbaInRange (vegetationColor 0) ∧ rgbaInRange (waterColor 0) ∧
        rgbaInRange (moistureColor 0) ∧
        ∀ indexType : String, colorPixel indexType false 0 = ⟨0, 0, 0, 0⟩) :=
  ⟨by norm_num, color_components_in_uint8_range 0 (by norm_num) (by norm_num)⟩

end Oleamind
